import Mathlib

/-!
Shallow embedding of `garde`'s error module (`src/garde/src/error.rs`): the
`Path` type over a persistent component list, the `Error` and `Report` types,
their `Display` renderings, and the `select` query, together with proofs of the
specification's claims about them.
-/

namespace Garde

/-- Component kind tag, `enum Kind` in `error.rs`: `None`, `Key`, `Index`. -/
inductive Kind where
  | none
  | key
  | index
deriving DecidableEq, Repr

/-- One path component: the `(Kind, CompactString)` pair stored in the list. -/
abbrev Component := Kind × String

/-- A `Key`-kind component. All string-like inputs (`&str`, `Cow<str>`, `String`,
`CompactString`) have `component_kind() == Kind::Key` and `to_compact_string()`
is the string itself. -/
def keyComp (s : String) : Component := (Kind.key, s)

/-- An `Index`-kind component built from a `usize`: `component_kind() == Kind::Index`
and `to_compact_string()` is the decimal rendering of the integer. -/
def indexComp (n : Nat) : Component := (Kind.index, Nat.repr n)

/-- The `NoKey` marker: `component_kind() == Kind::None`, and since its `Display`
impl writes nothing, `to_compact_string()` is the empty string. -/
def noKeyComp : Component := (Kind.none, "")

/-- Modelled from the spec: `error.rs` declares `mod rc_list` but the file is not
under `src/`. Per the spec, `List::append` on a list makes the new value the head
and shares the prior list as the tail (components are stored in reverse order of
addition, most recent at the head). -/
def listAppend (l : List Component) (a : Component) : List Component := a :: l

/-- `struct Path` in `error.rs`: a persistent list of `(Kind, CompactString)`
components, the most recently joined component at the head. Equality is the
derived structural equality on the component sequence. -/
structure Path where
  components : List Component
deriving DecidableEq, Repr

/-- `Path::empty`: a path with zero components (`List::new()`). -/
def Path.empty : Path := ⟨[]⟩

/-- `Path::len`: the (cached) length of the component list. -/
def Path.len (p : Path) : Nat := p.components.length

/-- `Path::is_empty`: `self.components.is_empty()`. -/
def Path.is_empty (p : Path) : Bool := p.components.isEmpty

/-- `Path::new(component)`: `List::new().append((C::component_kind(), text))`.
The typed `PathComponentKind` conversion is represented by the component
constructors `keyComp`, `indexComp`, `noKeyComp`. -/
def Path.new (c : Component) : Path := ⟨listAppend [] c⟩

/-- `Path::join(component)`: append one `(kind, text)` pair onto the shared list. -/
def Path.join (p : Path) (c : Component) : Path := ⟨listAppend p.components c⟩

/-- `Path::__iter().rev()`: the components in root-first order (the stored list
is deepest-first, so rendering reverses it). -/
def Path.rootFirst (p : Path) : List Component := p.components.reverse

/-- The separator `Display for Path` writes before a peeked next component,
chosen by that next component's kind: nothing for `None`, `.` for `Key`,
`[` for `Index`. -/
def sepFor : Kind → String
  | Kind.none => ""
  | Kind.key => "."
  | Kind.index => "["

/-- The loop body of `impl Display for Path`: iterate the components root-first
with a `first` flag; write a leading `[` when the first component has kind
`Index`; write the component text; write a closing `]` after an `Index`
component; then, if a next component is peeked, write the separator for its
kind. -/
def renderLoop : Bool → List Component → String
  | _, [] => ""
  | first, c :: rest =>
    (if first = true ∧ c.1 = Kind.index then "[" else "") ++
      c.2 ++
      (if c.1 = Kind.index then "]" else "") ++
      (match rest with
       | [] => ""
       | c2 :: _ => sepFor c2.1) ++
      renderLoop false rest

/-- `impl Display for Path`: render the components root-first. -/
def Path.display (p : Path) : String := renderLoop true p.rootFirst

/-- `impl serde::Serialize for Path`: serialize as the single `Display` string
(`self.to_compact_string()` of the `Display` output). -/
def Path.serialize (p : Path) : String := p.display

/-- `struct Error` in `error.rs`: an opaque wrapper around a message string. -/
structure Error where
  message : String
deriving DecidableEq, Repr

/-- `Error::new(message)`: wrap the compact-string rendering of the message. -/
def Error.new (m : String) : Error := ⟨m⟩

/-- `impl Display for Error`: the message verbatim. -/
def Error.display (e : Error) : String := e.message

/-- `struct Report` in `error.rs`: a flat `Vec` of `(Path, Error)` pairs. -/
structure Report where
  errors : List (Path × Error)
deriving DecidableEq, Repr

/-- `Report::new`: the empty report. -/
def Report.new : Report := ⟨[]⟩

/-- `Report::append(path, error)`: `self.errors.push((path, error))` — the pair
goes at the end of the vector. -/
def Report.append (r : Report) (p : Path) (e : Error) : Report :=
  ⟨r.errors ++ [(p, e)]⟩

/-- `Report::iter`: the `(Path, Error)` pairs in vector order. -/
def Report.iter (r : Report) : List (Path × Error) := r.errors

/-- `Report::is_empty`: `self.errors.is_empty()`. -/
def Report.is_empty (r : Report) : Bool := r.errors.isEmpty

/-- One line written by `impl Display for Report`:
`writeln!(f, "{path}: {error}")`. -/
def reportLine (pe : Path × Error) : String :=
  pe.1.display ++ ": " ++ pe.2.display ++ "\n"

/-- `impl Display for Report`: one line per pair, in iteration order. -/
def Report.display (r : Report) : String :=
  r.errors.foldl (fun acc pe => acc ++ reportLine pe) ""

/-- Modelled from the spec: the `select!` macro is declared at the crate root,
which is not under `src/` (only its test caller is). Per the spec it lowers a
pattern of `ident` and `[n]` tokens — so a pattern holds only `Key`- and
`Index`-kind components — to a component-wise matcher over the entry's path
walked root-first, skipping `None`-kind path components, with a fully consumed
pattern matching. On one point the spec's words ("comparison is component-wise
and structural", kind and text) are overridden by the repository's own
`report_select` test (`error.rs` lines 256-276): the test appends the path
`Path::new("array").join("0").join("c")`, whose components are all `Key`-kind
(`"0"` is a `&str`), and asserts that the pattern `array[0].c` selects it; that
forces the matcher to compare component text only, ignoring kinds. See
`matchKindsSpec` below for the spec-worded variant and the proof that it
contradicts the test. -/
def matchFrom : List Component → List Component → Bool
  | _, [] => true
  | [], _ :: _ => false
  | c :: ps, c2 :: pat =>
    if c.1 = Kind.none then matchFrom ps (c2 :: pat)
    else if c.2 = c2.2 then matchFrom ps pat
    else false

/-- The matcher exactly as the spec words it ("`Key("a")` matches only a
`Key`-kind component whose text equals `"a"`; `Index(0)` matches only an
`Index`-kind component"): like `matchFrom` but requiring kind equality as well.
Kept only to compare against the repository's `report_select` test, which it
fails (`matchKindsSpec_fails_test` below). -/
def matchKindsSpec : List Component → List Component → Bool
  | _, [] => true
  | [], _ :: _ => false
  | c :: ps, c2 :: pat =>
    if c.1 = Kind.none then matchKindsSpec ps (c2 :: pat)
    else if c.1 = c2.1 ∧ c.2 = c2.2 then matchKindsSpec ps pat
    else false

/-- Modelled from the spec: `select(report, pattern)` yields, in the report's
insertion order, the error of every entry whose path matches the pattern. -/
def select (r : Report) (pat : List Component) : List Error :=
  (r.errors.filter (fun pe => matchFrom pe.1.rootFirst pat)).map Prod.snd

/-- The non-`None` components of a component sequence, in order. -/
def nonNone (l : List Component) : List Component :=
  l.filter (fun c => c.1 ≠ Kind.none)

/-- Restatement of the spec's join-rendering law in the spec's own words, for
comparison with the implementation's rendering: rendered `p`, then the separator
determined by the new component's kind, then the component text, then a closing
`]` when the new kind is `Index`. -/
def joinRenderSpec (p : Path) (c : Component) : String :=
  p.display ++ sepFor c.1 ++ c.2 ++ (if c.1 = Kind.index then "]" else "")

/-- The path `Path::new("array").join("0").join("c")` from the `report_select`
test: all three components are `Key`-kind. -/
def pathArr : Path :=
  ((Path.new (keyComp "array")).join (keyComp "0")).join (keyComp "c")

/-- The pattern `array[0].c`: `Key "array"`, `Index 0`, `Key "c"`. -/
def patArr0c : List Component := [keyComp "array", indexComp 0, keyComp "c"]

/-- The pattern `a.b.c`. -/
def patABC : List Component := [keyComp "a", keyComp "b", keyComp "c"]

/-- The report built by the `report_select` test in `error.rs`. -/
def reportTest : Report :=
  ((((Report.new.append ((Path.new (keyComp "a")).join (keyComp "b"))
        (Error.new "lol")).append
      (((Path.new (keyComp "a")).join (keyComp "b")).join (keyComp "c"))
        (Error.new "that seems wrong")).append
      (((Path.new (keyComp "a")).join (keyComp "b")).join (keyComp "c"))
        (Error.new "pog")).append
      pathArr (Error.new "pog"))

/-- A single-entry report holding just the fourth entry of the `report_select`
test: `(array.0.c as Key components, "pog")`. -/
def reportArrOnly : Report := Report.new.append pathArr (Error.new "pog")

/-- One-step unfolding of `renderLoop` on a non-empty component list. -/
theorem renderLoop_cons (first : Bool) (c : Component) (rest : List Component) :
    renderLoop first (c :: rest) =
      (if first = true ∧ c.1 = Kind.index then "[" else "") ++
        c.2 ++
        (if c.1 = Kind.index then "]" else "") ++
        (match rest with
         | [] => ""
         | c2 :: _ => sepFor c2.1) ++
        renderLoop false rest := rfl

/-- Appending one component at the deep end of a non-empty root-first list
extends the rendering by the separator for the kind of the new component, the
component text, and a closing bracket for an index. -/
theorem renderLoop_concat (k : Component) :
    ∀ (l : List Component) (c : Component) (first : Bool),
      renderLoop first ((c :: l) ++ [k]) =
        renderLoop first (c :: l) ++
          (sepFor k.1 ++ (k.2 ++ (if k.1 = Kind.index then "]" else ""))) := by
  intro l
  induction l with
  | nil =>
    intro c first
    simp [renderLoop, String.append_assoc, String.append_empty, String.empty_append]
  | cons c' l' ih =>
    intro c first
    conv_lhs => rw [List.cons_append, renderLoop_cons, ih c' false]
    conv_rhs => rw [renderLoop_cons]
    simp [String.append_assoc, List.cons_append]

/-- The matcher accepts exactly when the texts of the first `|pat|` non-`None`
path components (root-first) agree with the texts of the pattern components. -/
theorem matchFrom_iff (ps : List Component) :
    ∀ pat : List Component,
      matchFrom ps pat = true ↔
        ((nonNone ps).take pat.length).map Prod.snd = pat.map Prod.snd := by
  induction ps with
  | nil =>
    intro pat
    cases pat <;> simp [matchFrom, nonNone]
  | cons c ps ih =>
    intro pat
    cases pat with
    | nil => simp [matchFrom, nonNone]
    | cons c2 pat' =>
      by_cases hc : c.1 = Kind.none
      · simp [matchFrom, hc, nonNone, List.filter_cons, ih]
      · by_cases ht : c.2 = c2.2
        · simp [matchFrom, hc, ht, nonNone, List.filter_cons, ih pat']
        · simp [matchFrom, hc, ht, nonNone, List.filter_cons]

/-- `select` is the in-order filtering of the report by the take-based text
condition. -/
theorem select_eq_filter (r : Report) (pat : List Component) :
    select r pat = (r.errors.filter (fun pe =>
        ((nonNone pe.1.rootFirst).take pat.length).map Prod.snd =
          pat.map Prod.snd)).map Prod.snd := by
  unfold select
  congr 1
  apply List.filter_congr
  intro pe _
  apply Bool.eq_iff_iff.mpr
  simp [matchFrom_iff]

/-- Membership in the result of `select`, characterised by the take-based text
condition on some entry carrying the error. -/
theorem select_mem (r : Report) (pat : List Component) (e : Error) :
    e ∈ select r pat ↔
      ∃ p : Path, (p, e) ∈ r.errors ∧
        ((nonNone p.rootFirst).take pat.length).map Prod.snd = pat.map Prod.snd := by
  rw [select_eq_filter]
  simp only [List.mem_map, List.mem_filter]
  constructor
  · rintro ⟨⟨p, e'⟩, ⟨hmem, hcond⟩, rfl⟩
    exact ⟨p, hmem, by simpa using hcond⟩
  · rintro ⟨p, hmem, hcond⟩
    exact ⟨(p, e), ⟨hmem, by simpa using hcond⟩, rfl⟩

/-- The empty pattern selects every error of the report, in order. -/
theorem select_nil (r : Report) : select r [] = r.errors.map Prod.snd := by
  unfold select
  congr 1
  apply List.filter_eq_self.mpr
  intro pe _
  simp [matchFrom]

/-- Folding a list of `append` calls over a report appends exactly that list to
its entries. -/
theorem reportFoldIter (ps : List (Path × Error)) :
    ∀ r : Report, (ps.foldl (fun r pe => r.append pe.1 pe.2) r).iter = r.iter ++ ps := by
  induction ps with
  | nil => intro r; simp [Report.iter]
  | cons pe ps ih =>
    intro r
    simp only [List.foldl_cons, ih]
    simp [Report.append, Report.iter]

/-- `Display for Report` grows by exactly one `"path: error\n"` line per
`append`. -/
theorem report_display_append (r : Report) (p : Path) (e : Error) :
    (r.append p e).display = r.display ++ reportLine (p, e) := by
  simp [Report.display, Report.append, List.foldl_append]

/-- A report is never empty after an `append`. -/
theorem report_append_nonempty (r : Report) (p : Path) (e : Error) :
    (r.append p e).is_empty = false := by
  simp [Report.is_empty, Report.append]

/-- `Path::is_empty` agrees with `len() == 0`. -/
theorem path_isEmpty_iff (p : Path) : p.is_empty = true ↔ p.len = 0 := by
  simp [Path.is_empty, Path.len, List.isEmpty_iff, List.length_eq_zero]

/-- The kind-comparing matcher worded by the spec selects nothing from the
`report_select` test report for the pattern `array[0].c`, while the test in
`error.rs` asserts that this selection is exactly `[Error::new("pog")]`: the
spec-worded matcher cannot be the one the crate implements. -/
theorem matchKindsSpec_fails_test :
    (reportTest.errors.filter
        (fun pe => matchKindsSpec pe.1.rootFirst patArr0c)).map Prod.snd = [] ∧
    select reportTest patArr0c = [Error.new "pog"] := by decide

/-- Claim C1, counterexample: the claimed renderings of a path rooted at the
`None`-kind `NoKey` marker are false on the code — `Path::new(NoKey).join("a")`
does not render `"a"` (it renders `".a"`), and the two-join variant does not
render `"a.b"`. -/
theorem noKey_root_render_cex :
    ¬ (((Path.new noKeyComp).join (keyComp "a")).display = "a" ∧
       (((Path.new noKeyComp).join (keyComp "a")).join (keyComp "b")).display = "a.b") := by
  decide

/-- Claim C1, amended: the `None`-kind root contributes no text of its own
(rendering `Path::new(NoKey)` alone gives `""`), but the separator before the
following `Key` component is still written, because `Display for Path` chooses
the separator by peeking at the kind of the next component: the rendering of
`Path::new(NoKey).join("a")` is `".a"` and `Path::new(NoKey).join("a").join("b")`
renders `".a.b"`. -/
theorem noKey_root_render :
    ((Path.new noKeyComp).join (keyComp "a")).display = ".a" ∧
    (((Path.new noKeyComp).join (keyComp "a")).join (keyComp "b")).display = ".a.b" ∧
    (Path.new noKeyComp).display = "" := by decide

/-- Claim C2, counterexample: the join-rendering law fails at the empty path
with a `Key` component — `Path::empty().join("a")` renders `"a"`, not the
claimed `"" + "." + "a" = ".a"`. -/
theorem join_render_law_cex :
    (Path.empty.join (keyComp "a")).display ≠ joinRenderSpec Path.empty (keyComp "a") := by
  decide

/-- Claim C2, amended: for every path `p` and component `k`, the rendering of
`p.join(k)` equals the rendering of `p`, the separator for the kind of `k`
(`.` for `Key`, `[` for `Index`, nothing for `None`), the text of `k`, and a
closing `]` when the kind of `k` is `Index` — except when `p` has no
components, in which case `p.join(k)` renders exactly as `Path::new(k)`, with
no separator. -/
theorem join_render_law (p : Path) (c : Component) :
    (p.join c).display =
      if p.components = [] then (Path.new c).display else joinRenderSpec p c := by
  by_cases hp : p.components = []
  · simp [hp, Path.join, Path.new, Path.display, Path.rootFirst, listAppend]
  · have hrev : p.components.reverse ≠ [] := by simpa using hp
    obtain ⟨c0, rest, h0⟩ := List.exists_cons_of_ne_nil hrev
    have hdisp : (p.join c).display = renderLoop true ((c0 :: rest) ++ [c]) := by
      simp [Path.join, Path.display, Path.rootFirst, listAppend, h0]
    rw [hdisp, renderLoop_concat]
    simp [hp, joinRenderSpec, Path.display, Path.rootFirst, h0, String.append_assoc]

/-- Claim C3, counterexample: in the single-entry report holding the fourth
entry of the `report_select` test, the error is selected by the pattern
`array[0].c` even though the first three non-`None` components of its path do
not equal the pattern components component-wise in kind and text (the path
component `(Key, "0")` differs in kind from the pattern component
`(Index, "0")`); the claimed iff fails in the only-if direction. -/
theorem select_take_law_cex :
    reportArrOnly.errors = [(pathArr, Error.new "pog")] ∧
    Error.new "pog" ∈ select reportArrOnly patArr0c ∧
    (nonNone pathArr.rootFirst).take patArr0c.length ≠ patArr0c := by decide

/-- Claim C3, amended: for every report, entry `(p, e)` and pattern, `select`
yields `e` exactly when the texts of the first `|pattern|` non-`None`
components of `p` equal the texts of the pattern components (kinds are not
compared); the results appear in the insertion order of the report, and the
empty pattern yields every error. -/
theorem select_take_law :
    (∀ (r : Report) (pat : List Component) (e : Error),
        e ∈ select r pat ↔
          ∃ p : Path, (p, e) ∈ r.errors ∧
            ((nonNone p.rootFirst).take pat.length).map Prod.snd =
              pat.map Prod.snd) ∧
    (∀ (r : Report) (pat : List Component),
        select r pat = (r.errors.filter (fun pe =>
            ((nonNone pe.1.rootFirst).take pat.length).map Prod.snd =
              pat.map Prod.snd)).map Prod.snd) ∧
    (∀ r : Report, select r [] = r.errors.map Prod.snd) :=
  ⟨select_mem, select_eq_filter, select_nil⟩

/-- Claim C4, counterexample: the pattern `array[0].c` does match the entry
whose path was built as `Path::new("array").join("0").join("c")` with all
`Key`-kind components — selecting with it from the single-entry report is
non-empty, exactly as the `report_select` test of the crate asserts. -/
theorem select_structural_cex :
    select reportArrOnly patArr0c ≠ [] ∧
    matchFrom pathArr.rootFirst patArr0c = true := by decide

/-- Claim C4, amended: `select` comparison is on component text only, not on
kinds: the pattern component `Index(0)` matches a `Key`-kind path component
with text `"0"` (and fails on a differing text), matching a `Key`-kind
component of equal text consumes the `Index`-kind pattern component, and the
pattern `array[0].c` does select the entry whose path was built as
`Path::new("array").join("0").join("c")` (all `Key`-kind), in the single-entry
report as well as in the full `report_select` test report. -/
theorem select_text_match :
    matchFrom [(Kind.key, "0")] [(Kind.index, "0")] = true ∧
    matchFrom [(Kind.key, "1")] [(Kind.index, "0")] = false ∧
    (∀ (t : String) (ps pat : List Component),
        matchFrom ((Kind.key, t) :: ps) ((Kind.index, t) :: pat) = matchFrom ps pat) ∧
    select reportArrOnly patArr0c = [Error.new "pog"] ∧
    select reportTest patArr0c = [Error.new "pog"] := by
  refine ⟨by decide, by decide, ?_, by decide, by decide⟩
  intro t ps pat
  simp [matchFrom]

/-- Claim C5: the concrete rendering contracts — the empty path renders `""`,
`Path::new("a")` renders `"a"`, `Path::new(0usize)` renders `"[0]"`,
`Path::new("a").join("b").join("c")` renders `"a.b.c"`, and
`Path::new("xs").join(0usize).join("c")` renders `"xs[0].c"`. -/
theorem render_contracts :
    Path.empty.display = "" ∧
    (Path.new (keyComp "a")).display = "a" ∧
    (Path.new (indexComp 0)).display = "[0]" ∧
    (((Path.new (keyComp "a")).join (keyComp "b")).join (keyComp "c")).display = "a.b.c" ∧
    (((Path.new (keyComp "xs")).join (indexComp 0)).join (keyComp "c")).display = "xs[0].c" := by
  decide

/-- Claim C6: any report built by a sequence of `append` calls on `Report::new`
iterates exactly the appended pairs in call order, and each `append` extends
the existing iteration sequence at the end without removing or reordering
anything. -/
theorem report_order :
    (∀ ps : List (Path × Error),
        (ps.foldl (fun r pe => r.append pe.1 pe.2) Report.new).iter = ps) ∧
    (∀ (r : Report) (p : Path) (e : Error),
        (r.append p e).iter = r.iter ++ [(p, e)]) := by
  refine ⟨fun ps => ?_, fun r p e => rfl⟩
  rw [reportFoldIter]
  simp [Report.new, Report.iter]

/-- Claim C7: `Display for Report` writes one `"{path}: {error}"` line per pair
in insertion order — each `append` adds exactly one such line at the end, the
two-entry report `(a, "x"), (b, "y")` renders `"a: x\nb: y\n"` — and
`Report::new()` is empty while any report with an appended pair is not. -/
theorem report_display_contract :
    (∀ (r : Report) (p : Path) (e : Error),
        (r.append p e).display = r.display ++ reportLine (p, e)) ∧
    ((Report.new.append (Path.new (keyComp "a")) (Error.new "x")).append
        (Path.new (keyComp "b")) (Error.new "y")).display = "a: x\nb: y\n" ∧
    Report.new.is_empty = true ∧
    (∀ (r : Report) (p : Path) (e : Error), (r.append p e).is_empty = false) :=
  ⟨report_display_append, by decide, rfl, report_append_nonempty⟩

/-- Claim C8: `Path::empty().len()` is `0`, `join` increases `len` by exactly
one, and `is_empty` holds exactly when `len` is `0`. -/
theorem path_len_law :
    Path.empty.len = 0 ∧
    (∀ (p : Path) (c : Component), (p.join c).len = p.len + 1) ∧
    (∀ p : Path, p.is_empty = true ↔ p.len = 0) :=
  ⟨rfl, fun _ _ => rfl, path_isEmpty_iff⟩

/-- Claim C9: for every component, `Path::new(c)` equals `Path::empty().join(c)`
and both are the one-component path holding exactly the `(kind, text)` pair of
the component. -/
theorem new_eq_empty_join :
    ∀ c : Component, Path.new c = Path.empty.join c ∧ (Path.new c).components = [c] :=
  fun _ => ⟨rfl, rfl⟩

/-- Claim C10: `Display` of `Path` is not injective — `Path::new("a.b")` and
`Path::new("a").join("b")` are unequal paths that render to the same string,
and their serialized forms (the `Display` string, per the `serde::Serialize`
impl) coincide, so serializing a path as its rendering loses the component
structure. -/
theorem display_not_injective :
    Path.new (keyComp "a.b") ≠ (Path.new (keyComp "a")).join (keyComp "b") ∧
    (Path.new (keyComp "a.b")).display = ((Path.new (keyComp "a")).join (keyComp "b")).display ∧
    (Path.new (keyComp "a.b")).serialize = ((Path.new (keyComp "a")).join (keyComp "b")).serialize := by
  decide

end Garde
